import Mathlib

/-!
Verification of the routing/policy configuration in `next.config.js`.

The configuration declares:
- two `beforeFiles` rewrite rules and an empty `fallback` rewrite list
  (`nextConfig.rewrites`),
- two exact-source temporary redirects (`nextConfig.redirects`),
- one header directive with scope `/(.*)` carrying five security headers
  (`nextConfig.headers`),
- listener configuration resolved from environment variables with defaults
  (`nextConfig.serverRuntimeConfig` and `nextConfig.env`).

The rule data below is transcribed from the source file.  The generic
evaluation machinery (pattern matching, condition checking, the per-request
pipeline) is the framework's, absent from the repository, and is modelled
from the spec where noted.
-/

/-- A JavaScript value as it appears in the configuration: the expressions
`process.env.PORT || 5000` produce either the environment string or a
numeric default, so the resolved fields are string-or-number values. -/
inductive JSValue where
  | str (s : String)
  | num (n : Nat)
deriving DecidableEq

/-- JavaScript `a || b` for `a : string | undefined`: `b` when `a` is
`undefined` or the empty string (both falsy), else the string `a`. -/
def jsOrElse (a : Option String) (b : JSValue) : JSValue :=
  match a with
  | none => b
  | some s => if s = "" then b else JSValue.str s

/-- The environment variables consumed by the configuration. -/
structure ProcessEnv where
  PORT : Option String
  SECONDARY_PORT : Option String
  HOST : Option String
deriving DecidableEq

/-- The resolved `serverRuntimeConfig` object. -/
structure ServerRuntimeConfig where
  port : JSValue
  backupPort : JSValue
  host : JSValue
deriving DecidableEq

/-- `nextConfig.serverRuntimeConfig` (next.config.js lines 160-164):
`port = process.env.PORT || 5000`, `backupPort = process.env.SECONDARY_PORT
|| 3003`, `host = process.env.HOST || '0.0.0.0'`. -/
def serverRuntimeConfig (e : ProcessEnv) : ServerRuntimeConfig :=
  { port := jsOrElse e.PORT (JSValue.num 5000)
  , backupPort := jsOrElse e.SECONDARY_PORT (JSValue.num 3003)
  , host := jsOrElse e.HOST (JSValue.str "0.0.0.0") }

/-- The resolved `env` object propagated to the application. -/
structure EnvConfig where
  PORT : JSValue
  SECONDARY_PORT : JSValue
  HOST : JSValue
  MAIN_PORT_MAPPING : JSValue
  SECONDARY_PORT_MAPPING : JSValue
deriving DecidableEq

/-- `nextConfig.env` (next.config.js lines 167-173): the same `||`
resolution but with string defaults, plus two fixed mapping constants. -/
def envConfig (e : ProcessEnv) : EnvConfig :=
  { PORT := jsOrElse e.PORT (JSValue.str "5000")
  , SECONDARY_PORT := jsOrElse e.SECONDARY_PORT (JSValue.str "3003")
  , HOST := jsOrElse e.HOST (JSValue.str "0.0.0.0")
  , MAIN_PORT_MAPPING := JSValue.str "80"
  , SECONDARY_PORT_MAPPING := JSValue.str "3000" }

/-- The source path patterns appearing in the configuration:
exact literals, the catch-all `/:path*`, and the header scope `/(.*)`. -/
inductive SourcePattern where
  | exactly (s : String)
  | pathStar
  | anyPath
deriving DecidableEq

/-- Whether a string begins with the character `/`, i.e. is a request
path. -/
def startsWithSlash (p : String) : Bool :=
  match p.data with
  | [] => false
  | c :: _ => c == '/'

/-- Modelled from the spec: the framework's path-pattern matcher is not in
the repository.  Per the spec, `source` patterns support an exact match or
a trailing wildcard capturing the remaining segments, so `/:path*` and the
scope `/(.*)` match every request path (every path begins with `/`). -/
def SourcePattern.matchesPath : SourcePattern → String → Bool
  | SourcePattern.exactly s, p => p == s
  | SourcePattern.pathStar, p => startsWithSlash p
  | SourcePattern.anyPath, p => startsWithSlash p

/-- A `has` condition on a rewrite rule: a required header key, optionally
with a required value. -/
structure HasCondition where
  key : String
  value : Option String
deriving DecidableEq

/-- Request headers as an ordered key-value mapping. -/
abbrev RequestHeaders := List (String × String)

/-- ASCII lowercasing of a header name, character by character. -/
def lowerName (s : String) : String :=
  String.mk (s.data.map Char.toLower)

/-- Modelled from the spec: header lookup is case-insensitive in the key. -/
def findHeader (hs : RequestHeaders) (k : String) : Option String :=
  (hs.find? (fun kv => lowerName kv.fst == lowerName k)).map Prod.snd

/-- Modelled from the spec: a `has` condition holds when the header key is
present (case-insensitive key lookup) and, when a value is required, the
header's value equals it (case-sensitive comparison). -/
def condHolds (hs : RequestHeaders) (c : HasCondition) : Bool :=
  match findHeader hs c.key with
  | none => false
  | some v =>
    match c.value with
    | none => true
    | some w => v == w

/-- A rewrite rule: `source` pattern, literal `destination`, and `has`
conditions (all destinations in this configuration are literal paths). -/
structure RewriteRule where
  source : SourcePattern
  destination : String
  has : List HasCondition
deriving DecidableEq

/-- A rule matches when its source pattern matches the path and all of its
`has` conditions hold. -/
def ruleMatches (hs : RequestHeaders) (p : String) (r : RewriteRule) : Bool :=
  r.source.matchesPath p && r.has.all (condHolds hs)

/-- Modelled from the spec: rules are evaluated in declaration order and
the first full match supplies the destination (short-circuit). -/
def evalRewrites (hs : RequestHeaders) (p : String) : List RewriteRule → Option String
  | [] => none
  | r :: rest => if ruleMatches hs p r then some r.destination else evalRewrites hs p rest

/-- The `beforeFiles` rewrite list (next.config.js lines 111-129):
`/:path*` → `/` gated on header `x-redirected: true`, then
`/emergency-direct` → `/emergency-access/emergency`. -/
def beforeFiles : List RewriteRule :=
  [ { source := SourcePattern.pathStar
    , destination := "/"
    , has := [{ key := "x-redirected", value := some "true" }] }
  , { source := SourcePattern.exactly "/emergency-direct"
    , destination := "/emergency-access/emergency"
    , has := [] } ]

/-- The `fallback` rewrite list (next.config.js line 130): empty. -/
def fallback : List RewriteRule := []

/-- A redirect rule: exact source, destination, permanence flag. -/
structure RedirectRule where
  source : String
  destination : String
  permanent : Bool
deriving DecidableEq

/-- The redirect table (next.config.js lines 135-149): `/emergency` and
`/emergency-tool` both go to `/emergency-access/emergency`, temporarily. -/
def redirects : List RedirectRule :=
  [ { source := "/emergency", destination := "/emergency-access/emergency", permanent := false }
  , { source := "/emergency-tool", destination := "/emergency-access/emergency", permanent := false } ]

/-- Modelled from the spec: redirect matching is an exact-path linear scan
in declaration order, first match wins. -/
def findRedirect (p : String) : List RedirectRule → Option (String × Bool)
  | [] => none
  | r :: rest => if p == r.source then some (r.destination, r.permanent) else findRedirect p rest

/-- The five security headers (next.config.js lines 181-202). -/
def securityHeaders : List (String × String) :=
  [ ("X-Content-Type-Options", "nosniff")
  , ("X-Frame-Options", "DENY")
  , ("X-XSS-Protection", "1; mode=block")
  , ("Referrer-Policy", "strict-origin-when-cross-origin")
  , ("Permissions-Policy", "camera=(), microphone=(), geolocation=()") ]

/-- A header directive: a scope pattern and the headers it applies. -/
structure HeaderDirective where
  source : SourcePattern
  headers : List (String × String)

/-- `nextConfig.headers` (next.config.js lines 176-205): one directive of
scope `/(.*)` carrying the five security headers. -/
def headerDirectives : List HeaderDirective :=
  [ { source := SourcePattern.anyPath, headers := securityHeaders } ]

/-- Whether a response-header mapping already holds the key `k`. -/
def hasKey (m : List (String × String)) (k : String) : Bool :=
  m.any (fun kv => kv.fst == k)

/-- Modelled from the spec: header values are set, not appended — an
existing entry for the key is overwritten in place, otherwise the pair is
appended. -/
def setHeader (m : List (String × String)) (k v : String) : List (String × String) :=
  if hasKey m k then m.map (fun kv => if kv.fst == k then (k, v) else kv)
  else m ++ [(k, v)]

/-- Set every pair of `hs` into `m`, left to right. -/
def setHeaders (m : List (String × String)) : List (String × String) →
    List (String × String)
  | [] => m
  | kv :: rest => setHeaders (setHeader m kv.fst kv.snd) rest

/-- Apply one directive: when its scope matches the request path, set all
of its headers into the response mapping. -/
def applyDirective (p : String) (m : List (String × String)) (d : HeaderDirective) :
    List (String × String) :=
  if d.source.matchesPath p then setHeaders m d.headers else m

/-- Apply the configured header directives to a response-header mapping. -/
def applyHeaderPolicy (p : String) (m : List (String × String)) : List (String × String) :=
  headerDirectives.foldl (applyDirective p) m

/-- Look up a response header by its exact key. -/
def getResponseHeader (m : List (String × String)) (k : String) : Option String :=
  (m.find? (fun kv => kv.fst == k)).map Prod.snd

/-- An inbound request: path and headers. -/
structure Request where
  path : String
  headers : RequestHeaders
deriving DecidableEq

/-- The terminal outcome of routing a request. -/
inductive Outcome where
  | redirected (location : String) (permanent : Bool)
  | served (dispatchPath : String)
  | notFound (dispatchPath : String)
deriving DecidableEq

/-- The outbound response: outcome plus the merged response headers. -/
structure RouterResponse where
  outcome : Outcome
  responseHeaders : List (String × String)
deriving DecidableEq

/-- The effective dispatch path after the `beforeFiles` rewrite phase. -/
def beforeFilesPath (req : Request) : String :=
  (evalRewrites req.headers req.path beforeFiles).getD req.path

/-- The effective dispatch path after the `fallback` rewrite phase. -/
def fallbackPath (req : Request) (p : String) : String :=
  (evalRewrites req.headers p fallback).getD p

/-- Modelled from the spec: the Request Router pipeline, absent from the
repository.  `Received → RewriteBeforeFiles → RedirectCheck → [Redirected]
| NormalDispatch → (if unresolved) RewriteFallback → NormalDispatch2 →
[Served] | [NotFound] → HeaderPolicyApply`.  Normal dispatch is the
external collaborator `canDispatch`; the header policy is applied to the
initially empty response-header mapping on every terminal path. -/
def route (canDispatch : String → Bool) (req : Request) : RouterResponse :=
  match findRedirect (beforeFilesPath req) redirects with
  | some dp =>
      { outcome := Outcome.redirected dp.fst dp.snd
      , responseHeaders := applyHeaderPolicy req.path [] }
  | none =>
      if canDispatch (beforeFilesPath req) then
        { outcome := Outcome.served (beforeFilesPath req)
        , responseHeaders := applyHeaderPolicy req.path [] }
      else
        if canDispatch (fallbackPath req (beforeFilesPath req)) then
          { outcome := Outcome.served (fallbackPath req (beforeFilesPath req))
          , responseHeaders := applyHeaderPolicy req.path [] }
        else
          { outcome := Outcome.notFound (fallbackPath req (beforeFilesPath req))
          , responseHeaders := applyHeaderPolicy req.path [] }

/-- C6: with no environment overrides, the listener configuration resolves
host to `0.0.0.0`, primary port to `5000` and secondary port to `3003`;
setting only `PORT` (to a non-empty value such as `8080`) changes only the
primary port, to that value. -/
theorem listenerConfigResolution :
    (serverRuntimeConfig { PORT := none, SECONDARY_PORT := none, HOST := none }
      = { port := JSValue.num 5000, backupPort := JSValue.num 3003
        , host := JSValue.str "0.0.0.0" })
    ∧ ∀ s : String, s ≠ "" →
      serverRuntimeConfig { PORT := some s, SECONDARY_PORT := none, HOST := none }
        = { port := JSValue.str s, backupPort := JSValue.num 3003
          , host := JSValue.str "0.0.0.0" } := by
  refine ⟨rfl, fun s hs => ?_⟩
  simp [serverRuntimeConfig, jsOrElse, hs]

/-- Witness for C6 at `PORT=8080`. -/
theorem listenerConfigResolutionWitness :
    ("8080" : String) ≠ ""
    ∧ serverRuntimeConfig { PORT := some "8080", SECONDARY_PORT := none, HOST := none }
      = { port := JSValue.str "8080", backupPort := JSValue.num 3003
        , host := JSValue.str "0.0.0.0" } :=
  ⟨by decide, listenerConfigResolution.2 "8080" (by decide)⟩

/-- C7 counterexample: configuration resolution does not fail on a
non-numeric `PORT`.  With `PORT=abc` it succeeds and carries the string
through verbatim — there is no validation and no fatal error in the
configuration. -/
theorem nonNumericPortAccepted :
    serverRuntimeConfig { PORT := some "abc", SECONDARY_PORT := none, HOST := none }
      = { port := JSValue.str "abc", backupPort := JSValue.num 3003
        , host := JSValue.str "0.0.0.0" } := by
  decide

/-- C7 amended: configuration resolution performs no numeric validation —
any non-empty `PORT` and `SECONDARY_PORT` strings, numeric or not, are
accepted and carried through verbatim; resolution is a total function and
never fails. -/
theorem noPortValidation (s t : String) (hs : s ≠ "") (ht : t ≠ "") :
    serverRuntimeConfig { PORT := some s, SECONDARY_PORT := some t, HOST := none }
      = { port := JSValue.str s, backupPort := JSValue.str t
        , host := JSValue.str "0.0.0.0" } := by
  simp [serverRuntimeConfig, jsOrElse, hs, ht]

/-- Witness for the amended C7 at the non-numeric values `abc` and `x0y`. -/
theorem noPortValidationWitness :
    ("abc" : String) ≠ "" ∧ ("x0y" : String) ≠ ""
    ∧ serverRuntimeConfig { PORT := some "abc", SECONDARY_PORT := some "x0y", HOST := none }
      = { port := JSValue.str "abc", backupPort := JSValue.str "x0y"
        , host := JSValue.str "0.0.0.0" } :=
  ⟨by decide, by decide, noPortValidation "abc" "x0y" (by decide) (by decide)⟩

/-- C10 counterexample: with `PORT` set to the empty string, neither view
holds the environment's value verbatim — the `||` fallback makes the
server-runtime view hold the number `5000` and the env view the string
`5000`. -/
theorem emptyPortNotVerbatim :
    (serverRuntimeConfig { PORT := some "", SECONDARY_PORT := none, HOST := none }).port
      = JSValue.num 5000
    ∧ (envConfig { PORT := some "", SECONDARY_PORT := none, HOST := none }).PORT
      = JSValue.str "5000"
    ∧ JSValue.num 5000 ≠ JSValue.str ""
    ∧ JSValue.str "5000" ≠ JSValue.str "" := by
  decide

/-- C10 amended: by default the server-runtime view holds the numbers
`5000` and `3003` while the env view holds the strings `5000` and `3003`;
when `PORT` or `SECONDARY_PORT` is set to a non-empty string both views
hold that string verbatim; the external mapping values are the constants
`80` and `3000` regardless of the environment. -/
theorem configViewsCorrespondence :
    ((serverRuntimeConfig { PORT := none, SECONDARY_PORT := none, HOST := none }).port
        = JSValue.num 5000
      ∧ (serverRuntimeConfig { PORT := none, SECONDARY_PORT := none, HOST := none }).backupPort
        = JSValue.num 3003
      ∧ (envConfig { PORT := none, SECONDARY_PORT := none, HOST := none }).PORT
        = JSValue.str "5000"
      ∧ (envConfig { PORT := none, SECONDARY_PORT := none, HOST := none }).SECONDARY_PORT
        = JSValue.str "3003")
    ∧ (∀ (s : String), s ≠ "" → ∀ (e : ProcessEnv), e.PORT = some s →
        (serverRuntimeConfig e).port = JSValue.str s ∧ (envConfig e).PORT = JSValue.str s)
    ∧ (∀ (s : String), s ≠ "" → ∀ (e : ProcessEnv), e.SECONDARY_PORT = some s →
        (serverRuntimeConfig e).backupPort = JSValue.str s
        ∧ (envConfig e).SECONDARY_PORT = JSValue.str s)
    ∧ (∀ (e : ProcessEnv), (envConfig e).MAIN_PORT_MAPPING = JSValue.str "80"
        ∧ (envConfig e).SECONDARY_PORT_MAPPING = JSValue.str "3000") := by
  refine ⟨⟨rfl, rfl, rfl, rfl⟩, ?_, ?_, fun e => ⟨rfl, rfl⟩⟩
  · intro s hs e he
    constructor
    · simp [serverRuntimeConfig, jsOrElse, he, hs]
    · simp [envConfig, jsOrElse, he, hs]
  · intro s hs e he
    constructor
    · simp [serverRuntimeConfig, jsOrElse, he, hs]
    · simp [envConfig, jsOrElse, he, hs]

/-- Witness for the amended C10 at `PORT=9090`, `SECONDARY_PORT=4444`. -/
theorem configViewsCorrespondenceWitness :
    ("9090" : String) ≠ ""
    ∧ ({ PORT := some "9090", SECONDARY_PORT := some "4444", HOST := none } : ProcessEnv).PORT
        = some "9090"
    ∧ (serverRuntimeConfig { PORT := some "9090", SECONDARY_PORT := some "4444", HOST := none }).port
        = JSValue.str "9090"
    ∧ (envConfig { PORT := some "9090", SECONDARY_PORT := some "4444", HOST := none }).PORT
        = JSValue.str "9090" :=
  ⟨by decide, rfl,
    configViewsCorrespondence.2.1 "9090" (by decide)
      { PORT := some "9090", SECONDARY_PORT := some "4444", HOST := none } rfl⟩

/-- On every terminal path of the router, the response headers are the
header policy applied to the initially empty mapping. -/
theorem route_responseHeaders (cd : String → Bool) (req : Request) :
    (route cd req).responseHeaders = applyHeaderPolicy req.path [] := by
  rcases hfr : findRedirect (beforeFilesPath req) redirects with _ | dp
  · by_cases h1 : cd (beforeFilesPath req)
    · simp [route, hfr, h1]
    · by_cases h2 : cd (fallbackPath req (beforeFilesPath req)) <;> simp [route, hfr, h1, h2]
  · simp [route, hfr]

/-- C1: whatever terminal outcome the router reaches, the response headers
contain all five security headers with exactly the configured values, and
the directive scope `/(.*)` matches every request path. -/
theorem securityHeadersAlwaysPresent (cd : String → Bool) (req : Request)
    (hp : startsWithSlash req.path = true) :
    SourcePattern.anyPath.matchesPath req.path = true
    ∧ getResponseHeader (route cd req).responseHeaders "X-Content-Type-Options"
        = some "nosniff"
    ∧ getResponseHeader (route cd req).responseHeaders "X-Frame-Options"
        = some "DENY"
    ∧ getResponseHeader (route cd req).responseHeaders "X-XSS-Protection"
        = some "1; mode=block"
    ∧ getResponseHeader (route cd req).responseHeaders "Referrer-Policy"
        = some "strict-origin-when-cross-origin"
    ∧ getResponseHeader (route cd req).responseHeaders "Permissions-Policy"
        = some "camera=(), microphone=(), geolocation=()" := by
  have hh : (route cd req).responseHeaders = applyHeaderPolicy req.path [] :=
    route_responseHeaders cd req
  have hpol : applyHeaderPolicy req.path [] = setHeaders [] securityHeaders := by
    simp [applyHeaderPolicy, headerDirectives, applyDirective, SourcePattern.matchesPath, hp]
  rw [hh, hpol]
  refine ⟨hp, ?_, ?_, ?_, ?_, ?_⟩ <;> decide

/-- Witness for C1 on the request path `/emergency` with no headers. -/
theorem securityHeadersAlwaysPresentWitness :
    (startsWithSlash "/emergency" = true)
    ∧ (SourcePattern.anyPath.matchesPath "/emergency" = true
      ∧ getResponseHeader
          (route (fun _ => true) { path := "/emergency", headers := [] }).responseHeaders
          "X-Content-Type-Options" = some "nosniff"
      ∧ getResponseHeader
          (route (fun _ => true) { path := "/emergency", headers := [] }).responseHeaders
          "X-Frame-Options" = some "DENY"
      ∧ getResponseHeader
          (route (fun _ => true) { path := "/emergency", headers := [] }).responseHeaders
          "X-XSS-Protection" = some "1; mode=block"
      ∧ getResponseHeader
          (route (fun _ => true) { path := "/emergency", headers := [] }).responseHeaders
          "Referrer-Policy" = some "strict-origin-when-cross-origin"
      ∧ getResponseHeader
          (route (fun _ => true) { path := "/emergency", headers := [] }).responseHeaders
          "Permissions-Policy" = some "camera=(), microphone=(), geolocation=()") :=
  ⟨by decide,
    securityHeadersAlwaysPresent (fun _ => true) { path := "/emergency", headers := [] }
      (by decide)⟩

/-- C3: every request carrying header `x-redirected: true` (key matched
case-insensitively, value case-sensitively) is rewritten by the
`beforeFiles` phase, and its effective dispatch path becomes `/`,
regardless of the original path. -/
theorem xRedirectedRewritesToRoot (req : Request)
    (hx : findHeader req.headers "x-redirected" = some "true")
    (hp : startsWithSlash req.path = true) :
    evalRewrites req.headers req.path beforeFiles = some "/"
    ∧ beforeFilesPath req = "/" := by
  have hm : ruleMatches req.headers req.path
      { source := SourcePattern.pathStar
      , destination := "/"
      , has := [{ key := "x-redirected", value := some "true" }] } = true := by
    simp [ruleMatches, SourcePattern.matchesPath, hp, condHolds, hx]
  constructor
  · simp [beforeFiles, evalRewrites, hm]
  · simp [beforeFilesPath, beforeFiles, evalRewrites, hm]

/-- Witness for C3: a request to `/some/deep/path` whose header key is
spelled `X-Redirected` (different case) is still rewritten to `/`. -/
theorem xRedirectedRewritesToRootWitness :
    (findHeader [("X-Redirected", "true")] "x-redirected" = some "true")
    ∧ (startsWithSlash "/some/deep/path" = true)
    ∧ (evalRewrites [("X-Redirected", "true")] "/some/deep/path" beforeFiles = some "/"
      ∧ beforeFilesPath { path := "/some/deep/path", headers := [("X-Redirected", "true")] }
          = "/") :=
  ⟨by decide, by decide,
    xRedirectedRewritesToRoot
      { path := "/some/deep/path", headers := [("X-Redirected", "true")] }
      (by decide) (by decide)⟩

/-- C4: rewrite evaluation within a phase is first-match-wins in
declaration order: when the head rule matches, the result is that rule's
destination and is independent of whatever rules follow it. -/
theorem firstMatchWins (hs : RequestHeaders) (p : String) (r : RewriteRule)
    (rest1 rest2 : List RewriteRule) (h : ruleMatches hs p r = true) :
    evalRewrites hs p (r :: rest1) = some r.destination
    ∧ evalRewrites hs p (r :: rest1) = evalRewrites hs p (r :: rest2) := by
  constructor <;> simp [evalRewrites, h]

/-- Witness for C4: for `/emergency-direct` with header
`x-redirected: true`, both `beforeFiles` rules match, and the first
declared (catch-all) rule decides: the rewrite goes to `/`, not to
`/emergency-access/emergency`. -/
theorem firstMatchWinsWitness :
    (ruleMatches [("x-redirected", "true")] "/emergency-direct"
      { source := SourcePattern.pathStar
      , destination := "/"
      , has := [{ key := "x-redirected", value := some "true" }] } = true)
    ∧ (ruleMatches [("x-redirected", "true")] "/emergency-direct"
      { source := SourcePattern.exactly "/emergency-direct"
      , destination := "/emergency-access/emergency"
      , has := [] } = true)
    ∧ (evalRewrites [("x-redirected", "true")] "/emergency-direct"
        ({ source := SourcePattern.pathStar
         , destination := "/"
         , has := [{ key := "x-redirected", value := some "true" }] }
          :: [{ source := SourcePattern.exactly "/emergency-direct"
              , destination := "/emergency-access/emergency"
              , has := [] }]) = some "/"
      ∧ evalRewrites [("x-redirected", "true")] "/emergency-direct"
        ({ source := SourcePattern.pathStar
         , destination := "/"
         , has := [{ key := "x-redirected", value := some "true" }] }
          :: [{ source := SourcePattern.exactly "/emergency-direct"
              , destination := "/emergency-access/emergency"
              , has := [] }])
        = evalRewrites [("x-redirected", "true")] "/emergency-direct"
          ({ source := SourcePattern.pathStar
           , destination := "/"
           , has := [{ key := "x-redirected", value := some "true" }] } :: []) ) :=
  ⟨by decide, by decide,
    firstMatchWins [("x-redirected", "true")] "/emergency-direct"
      { source := SourcePattern.pathStar
      , destination := "/"
      , has := [{ key := "x-redirected", value := some "true" }] }
      [{ source := SourcePattern.exactly "/emergency-direct"
       , destination := "/emergency-access/emergency"
       , has := [] }]
      [] (by decide)⟩

/-- C5: the router redirects exactly when the redirect table matches the
path produced by the `beforeFiles` rewrite phase — the redirect decision
is taken after `beforeFiles` rewriting and is independent of the dispatch
collaborator, hence strictly before normal dispatch. -/
theorem redirectsMatchRewrittenPath (cd : String → Bool) (req : Request)
    (d : String) (b : Bool) :
    (route cd req).outcome = Outcome.redirected d b
      ↔ findRedirect (beforeFilesPath req) redirects = some (d, b) := by
  rcases hfr : findRedirect (beforeFilesPath req) redirects with _ | dp
  · constructor
    · intro hout
      exfalso
      by_cases h1 : cd (beforeFilesPath req)
      · simp [route, hfr, h1] at hout
      · by_cases h2 : cd (fallbackPath req (beforeFilesPath req)) <;>
          simp [route, hfr, h1, h2] at hout
    · intro h
      exact absurd h (by simp)
  · constructor
    · intro hout
      simp only [route, hfr] at hout
      cases hout
      rfl
    · intro h
      injection h with h
      subst h
      simp [route, hfr]

/-- Witness for C5 at the request `/emergency` with no headers: no
`beforeFiles` rule matches, the redirect table matches `/emergency`, and
the router redirects temporarily to `/emergency-access/emergency`. -/
theorem redirectsMatchRewrittenPathWitness :
    (findRedirect
        (beforeFilesPath { path := "/emergency", headers := [] }) redirects
      = some ("/emergency-access/emergency", false))
    ∧ (route (fun _ => false) { path := "/emergency", headers := [] }).outcome
      = Outcome.redirected "/emergency-access/emergency" false :=
  ⟨by decide,
    (redirectsMatchRewrittenPath (fun _ => false) { path := "/emergency", headers := [] }
      "/emergency-access/emergency" false).2 (by decide)⟩

/-- C9: the `fallback` rewrite list is empty, so the fallback phase is the
identity: a request that misses both the redirect table and normal
dispatch is never rewritten by the fallback phase and terminates as a 404
at the unchanged dispatch path. -/
theorem fallbackPhaseIdentity (cd : String → Bool) (req : Request)
    (hnr : findRedirect (beforeFilesPath req) redirects = none)
    (hmiss : cd (beforeFilesPath req) = false) :
    evalRewrites req.headers (beforeFilesPath req) fallback = none
    ∧ fallbackPath req (beforeFilesPath req) = beforeFilesPath req
    ∧ (route cd req).outcome = Outcome.notFound (beforeFilesPath req) := by
  refine ⟨rfl, rfl, ?_⟩
  simp [route, hnr, fallbackPath, fallback, evalRewrites, hmiss]

/-- Witness for C9 at the request `/no-such-page` with no headers and a
dispatch collaborator that resolves nothing. -/
theorem fallbackPhaseIdentityWitness :
    (findRedirect
        (beforeFilesPath { path := "/no-such-page", headers := [] }) redirects = none)
    ∧ ((fun _ => false) (beforeFilesPath { path := "/no-such-page", headers := [] }) = false)
    ∧ (evalRewrites [] (beforeFilesPath { path := "/no-such-page", headers := [] }) fallback
        = none
      ∧ fallbackPath { path := "/no-such-page", headers := [] }
          (beforeFilesPath { path := "/no-such-page", headers := [] })
        = beforeFilesPath { path := "/no-such-page", headers := [] }
      ∧ (route (fun _ => false) { path := "/no-such-page", headers := [] }).outcome
        = Outcome.notFound (beforeFilesPath { path := "/no-such-page", headers := [] })) :=
  ⟨by decide, rfl,
    fallbackPhaseIdentity (fun _ => false) { path := "/no-such-page", headers := [] }
      (by decide) rfl⟩

/-- C2 counterexample: a request to `/emergency` that carries the header
`x-redirected: true` does not receive a redirect — the `beforeFiles`
catch-all rewrites it to `/` first, the redirect table does not match `/`,
and the request is served at dispatch path `/`. -/
theorem emergencyWithHeaderNotRedirected :
    (route (fun _ => true)
        { path := "/emergency", headers := [("x-redirected", "true")] }).outcome
      = Outcome.served "/"
    ∧ (route (fun _ => true)
        { path := "/emergency", headers := [("x-redirected", "true")] }).outcome
      ≠ Outcome.redirected "/emergency-access/emergency" false := by
  decide

/-- C2 amended: for requests that do not satisfy the catch-all rule's
`x-redirected: true` condition, `/emergency` and `/emergency-tool` each
receive a temporary redirect to `/emergency-access/emergency`, and
`/emergency-direct` is rewritten (no redirect) so that its effective
dispatch path is `/emergency-access/emergency`. -/
theorem emergencyRoutes (cd : String → Bool) (hs : RequestHeaders)
    (hx : findHeader hs "x-redirected" ≠ some "true") :
    (route cd { path := "/emergency", headers := hs }).outcome
      = Outcome.redirected "/emergency-access/emergency" false
    ∧ (route cd { path := "/emergency-tool", headers := hs }).outcome
      = Outcome.redirected "/emergency-access/emergency" false
    ∧ beforeFilesPath { path := "/emergency-direct", headers := hs }
      = "/emergency-access/emergency"
    ∧ findRedirect "/emergency-access/emergency" redirects = none
    ∧ (route cd { path := "/emergency-direct", headers := hs }).outcome
      = (if cd "/emergency-access/emergency" = true then
          Outcome.served "/emergency-access/emergency"
        else Outcome.notFound "/emergency-access/emergency") := by
  have hc : condHolds hs { key := "x-redirected", value := some "true" } = false := by
    unfold condHolds
    rcases hfh : findHeader hs "x-redirected" with _ | v
    · rfl
    · simp only []
      by_cases hv : (v == "true") = true
      · exact absurd (by rw [hfh, eq_of_beq hv]) hx
      · simp [hv]
  have hbf : ∀ p : String, evalRewrites hs p beforeFiles
      = (if p == "/emergency-direct" then some "/emergency-access/emergency" else none) := by
    intro p
    simp [beforeFiles, evalRewrites, ruleMatches, hc, SourcePattern.matchesPath]
  have h1 : beforeFilesPath { path := "/emergency", headers := hs } = "/emergency" := by
    simp [beforeFilesPath, hbf]
  have h2 : beforeFilesPath { path := "/emergency-tool", headers := hs }
      = "/emergency-tool" := by
    simp [beforeFilesPath, hbf]
  have h3 : beforeFilesPath { path := "/emergency-direct", headers := hs }
      = "/emergency-access/emergency" := by
    simp [beforeFilesPath, hbf]
  refine ⟨?_, ?_, h3, by decide, ?_⟩
  · simp [route, h1, findRedirect]
  · simp [route, h2, findRedirect]
  · rw [route, h3]
    have hnr : findRedirect "/emergency-access/emergency" redirects = none := by decide
    rw [hnr]
    by_cases hcd : cd "/emergency-access/emergency"
    · simp [hcd]
    · simp [hcd, fallbackPath, h3, fallback, evalRewrites]

/-- Witness for the amended C2 with no request headers and a dispatch
collaborator that resolves every path. -/
theorem emergencyRoutesWitness :
    (findHeader [] "x-redirected" ≠ some "true")
    ∧ ((route (fun _ => true) { path := "/emergency", headers := [] }).outcome
        = Outcome.redirected "/emergency-access/emergency" false
      ∧ (route (fun _ => true) { path := "/emergency-tool", headers := [] }).outcome
        = Outcome.redirected "/emergency-access/emergency" false
      ∧ beforeFilesPath { path := "/emergency-direct", headers := [] }
        = "/emergency-access/emergency"
      ∧ findRedirect "/emergency-access/emergency" redirects = none
      ∧ (route (fun _ => true) { path := "/emergency-direct", headers := [] }).outcome
        = (if (fun _ => true) "/emergency-access/emergency" = true then
            Outcome.served "/emergency-access/emergency"
          else Outcome.notFound "/emergency-access/emergency")) :=
  ⟨by decide, emergencyRoutes (fun _ => true) [] (by decide)⟩

/-- Every entry of `m` whose key is `k` carries the value `v`. -/
def allKeyVal (m : List (String × String)) (k v : String) : Prop :=
  ∀ e ∈ m, e.fst = k → e.snd = v

theorem hasKey_setHeader_self (m : List (String × String)) (k v : String) :
    hasKey (setHeader m k v) k = true := by
  unfold setHeader
  by_cases h : hasKey m k
  · rw [if_pos h]
    unfold hasKey at h ⊢
    rw [List.any_map]
    rw [List.any_eq_true] at h ⊢
    obtain ⟨kv, hmem, hk⟩ := h
    refine ⟨kv, hmem, ?_⟩
    simp only [Function.comp]
    rw [if_pos hk]
    exact beq_self_eq_true k
  · rw [if_neg h]
    unfold hasKey
    simp

theorem allKeyVal_setHeader_self (m : List (String × String)) (k v : String) :
    allKeyVal (setHeader m k v) k v := by
  intro e he hek
  unfold setHeader at he
  by_cases h : hasKey m k
  · rw [if_pos h] at he
    obtain ⟨kv, hmem, hfe⟩ := List.mem_map.mp he
    by_cases hkv : (kv.fst == k) = true
    · rw [if_pos hkv] at hfe
      rw [← hfe]
    · rw [if_neg hkv] at hfe
      subst hfe
      exact absurd hek (by simpa using hkv)
  · rw [if_neg h] at he
    rcases List.mem_append.mp he with hm | hm
    · unfold hasKey at h
      rw [Bool.not_eq_true, List.any_eq_false] at h
      exact absurd hek (by simpa using h e hm)
    · rw [List.mem_singleton.mp hm]

theorem hasKey_setHeader_mono (m : List (String × String)) (k k2 v2 : String)
    (h : hasKey m k = true) : hasKey (setHeader m k2 v2) k = true := by
  unfold setHeader
  by_cases h2 : hasKey m k2
  · rw [if_pos h2]
    unfold hasKey at h ⊢
    rw [List.any_map, List.any_eq_true] at *
    obtain ⟨kv, hmem, hk⟩ := h
    refine ⟨kv, hmem, ?_⟩
    simp only [Function.comp]
    by_cases hkv : (kv.fst == k2) = true
    · rw [if_pos hkv]
      have : kv.fst = k2 := by simpa using hkv
      rw [← this]
      exact hk
    · rw [if_neg hkv]
      exact hk
  · rw [if_neg h2]
    unfold hasKey at h ⊢
    rw [List.any_append, h]
    rfl

theorem allKeyVal_setHeader_of_ne (m : List (String × String)) (k v k2 v2 : String)
    (hne : k2 ≠ k) (h : allKeyVal m k v) : allKeyVal (setHeader m k2 v2) k v := by
  intro e he hek
  unfold setHeader at he
  by_cases h2 : hasKey m k2
  · rw [if_pos h2] at he
    obtain ⟨kv, hmem, hfe⟩ := List.mem_map.mp he
    by_cases hkv : (kv.fst == k2) = true
    · rw [if_pos hkv] at hfe
      rw [← hfe] at hek
      exact absurd hek hne
    · rw [if_neg hkv] at hfe
      subst hfe
      exact h kv hmem hek
  · rw [if_neg h2] at he
    rcases List.mem_append.mp he with hm | hm
    · exact h e hm hek
    · rw [List.mem_singleton.mp hm] at hek
      exact absurd hek hne

theorem setHeader_eq_self (m : List (String × String)) (k v : String)
    (hk : hasKey m k = true) (hv : allKeyVal m k v) : setHeader m k v = m := by
  unfold setHeader
  rw [if_pos hk]
  clear hk
  induction m with
  | nil => rfl
  | cons e rest ih =>
    have hrest : allKeyVal rest k v := fun x hx => hv x (List.mem_cons_of_mem _ hx)
    simp only [List.map_cons, ih hrest]
    by_cases he : (e.fst == k) = true
    · have h1 : e.fst = k := by simpa using he
      have h2 : e.snd = v := hv e (List.mem_cons_self _ _) h1
      rw [if_pos he, ← h1, ← h2]
    · rw [if_neg he]

theorem setHeaders_preserves (hs : List (String × String)) :
    ∀ (m : List (String × String)) (k v : String), (∀ kv ∈ hs, kv.fst ≠ k) →
      hasKey m k = true → allKeyVal m k v →
      hasKey (setHeaders m hs) k = true ∧ allKeyVal (setHeaders m hs) k v := by
  induction hs with
  | nil => exact fun m k v _ h1 h2 => ⟨h1, h2⟩
  | cons kv rest ih =>
    intro m k v hne h1 h2
    have hkvne : kv.fst ≠ k := hne kv (List.mem_cons_self _ _)
    exact ih (setHeader m kv.fst kv.snd) k v
      (fun x hx => hne x (List.mem_cons_of_mem _ hx))
      (hasKey_setHeader_mono m k kv.fst kv.snd h1)
      (allKeyVal_setHeader_of_ne m k v kv.fst kv.snd hkvne h2)

theorem setHeaders_eq_self (hs : List (String × String)) :
    ∀ m : List (String × String),
      (∀ kv ∈ hs, hasKey m kv.fst = true ∧ allKeyVal m kv.fst kv.snd) →
      setHeaders m hs = m := by
  induction hs with
  | nil => exact fun m _ => rfl
  | cons kv rest ih =>
    intro m h
    have h0 := h kv (List.mem_cons_self _ _)
    unfold setHeaders
    rw [setHeader_eq_self m kv.fst kv.snd h0.1 h0.2]
    exact ih m (fun x hx => h x (List.mem_cons_of_mem _ hx))

theorem setHeaders_establishes (hs : List (String × String)) :
    ∀ m : List (String × String), (hs.map Prod.fst).Nodup →
      ∀ kv ∈ hs, hasKey (setHeaders m hs) kv.fst = true
        ∧ allKeyVal (setHeaders m hs) kv.fst kv.snd := by
  induction hs with
  | nil => exact fun m _ kv hkv => absurd hkv (List.not_mem_nil kv)
  | cons e rest ih =>
    intro m hnd kv hkv
    rw [List.map_cons] at hnd
    have hnc := List.nodup_cons.mp hnd
    have hnd1 : e.fst ∉ rest.map Prod.fst := hnc.1
    have hnd2 : (rest.map Prod.fst).Nodup := hnc.2
    rcases List.mem_cons.mp hkv with heq | hmem
    · subst heq
      unfold setHeaders
      refine setHeaders_preserves rest (setHeader m kv.fst kv.snd) kv.fst kv.snd
        ?_ (hasKey_setHeader_self m kv.fst kv.snd)
        (allKeyVal_setHeader_self m kv.fst kv.snd)
      intro x hx hxe
      exact hnd1 (hxe ▸ List.mem_map_of_mem Prod.fst hx)
    · unfold setHeaders
      exact ih (setHeader m e.fst e.snd) hnd2 kv hmem

/-- C8: applying the header policy twice yields exactly the same response
header mapping as applying it once — each of the five keys is set
(overwritten), never appended or duplicated. -/
theorem headerPolicyIdempotent (p : String) (m : List (String × String)) :
    applyHeaderPolicy p (applyHeaderPolicy p m) = applyHeaderPolicy p m := by
  unfold applyHeaderPolicy headerDirectives
  simp only [List.foldl_cons, List.foldl_nil]
  unfold applyDirective
  by_cases hp : SourcePattern.anyPath.matchesPath p = true
  · simp only [hp, if_true]
    apply setHeaders_eq_self
    exact fun kv hkv => setHeaders_establishes securityHeaders m (by decide) kv hkv
  · simp [hp]
